import Mathlib

/-!
Verification development for the aim-oscar-server repository.

The authoritative source is `main.go` (the current version, with config
loading, a session manager and an alert service) together with
`models/message.go`.  Packages of the repository that the main file calls
into but whose sources are not part of the snapshot (the `oscar` codec
package, the `services` package and the session manager) are modelled from
the specification; each such definition's doc comment says so explicitly.
-/

namespace AimOscar

/-! ### Primitive big-endian codec

Modelled from the spec: the `oscar` byte-buffer primitive codec
(big-endian fixed-width integer read/write) is not part of the source
snapshot. -/

/-- Big-endian encoding of a 16-bit value into two bytes. -/
def u16BE (n : Nat) : List Nat := [n / 256 % 256, n % 256]

/-- Big-endian encoding of a 32-bit value into four bytes. -/
def u32BE (n : Nat) : List Nat :=
  [n / 16777216 % 256, n / 65536 % 256, n / 256 % 256, n % 256]

/-! ### TLV codec

Modelled from the spec: a TLV is (type: uint16, length: uint16,
value: bytes[length]); encoding a list concatenates TLVs in order;
decoding consumes TLVs until the buffer is empty, failing if a truncated
TLV remains. -/

structure TLV where
  type : Nat
  value : List Nat
  deriving Repr, DecidableEq

def TLV.Valid (t : TLV) : Prop :=
  t.type < 65536 ∧ t.value.length < 65536 ∧ ∀ b ∈ t.value, b < 256

instance (t : TLV) : Decidable t.Valid := by
  unfold TLV.Valid; infer_instance

def encodeTLV (t : TLV) : List Nat :=
  u16BE t.type ++ u16BE t.value.length ++ t.value

def encodeTLVs (ts : List TLV) : List Nat :=
  (ts.map encodeTLV).flatten

def decodeTLVs (bs : List Nat) : Option (List TLV) :=
  match bs with
  | [] => some []
  | t1 :: t2 :: l1 :: l2 :: rest =>
      let len := l1 * 256 + l2
      if _h : len ≤ rest.length then
        match decodeTLVs (rest.drop len) with
        | some ts => some (⟨t1 * 256 + t2, rest.take len⟩ :: ts)
        | none => none
      else none
  | _ => none
termination_by bs.length
decreasing_by
  simp only [List.length_drop, List.length_cons]
  omega

/-! ### SNAC codec

Modelled from the spec: SNAC header is 10 bytes — family (uint16),
subtype (uint16), flags (uint16), request id (uint32) — and the payload
is the rest of the buffer. -/

structure SNAC where
  family : Nat
  subtype : Nat
  flags : Nat
  requestID : Nat
  data : List Nat
  deriving Repr, DecidableEq

def SNAC.Valid (s : SNAC) : Prop :=
  s.family < 65536 ∧ s.subtype < 65536 ∧ s.flags < 65536 ∧
    s.requestID < 4294967296 ∧ ∀ b ∈ s.data, b < 256

instance (s : SNAC) : Decidable s.Valid := by
  unfold SNAC.Valid; infer_instance

def encodeSNAC (s : SNAC) : List Nat :=
  u16BE s.family ++ u16BE s.subtype ++ u16BE s.flags ++ u32BE s.requestID ++ s.data

def decodeSNAC (bs : List Nat) : Option SNAC :=
  match bs with
  | f1 :: f2 :: s1 :: s2 :: g1 :: g2 :: r1 :: r2 :: r3 :: r4 :: rest =>
      some ⟨f1 * 256 + f2, s1 * 256 + s2, g1 * 256 + g2,
            ((r1 * 256 + r2) * 256 + r3) * 256 + r4, rest⟩
  | _ => none

/-! ### FLAP codec

Modelled from the spec: FLAP header is 6 bytes — `0x2A` start byte,
channel (uint8), sequence (uint16 BE), payload length (uint16 BE) —
followed by the payload.  Parsing fails on a wrong start byte. -/

structure FLAP where
  channel : Nat
  sequence : Nat
  data : List Nat
  deriving Repr, DecidableEq

def FLAP.Valid (f : FLAP) : Prop :=
  f.channel < 256 ∧ f.sequence < 65536 ∧ f.data.length < 65536 ∧
    ∀ b ∈ f.data, b < 256

instance (f : FLAP) : Decidable f.Valid := by
  unfold FLAP.Valid; infer_instance

def encodeFLAP (f : FLAP) : List Nat :=
  0x2A :: f.channel :: (u16BE f.sequence ++ u16BE f.data.length ++ f.data)

/-- Decodes one FLAP frame from the front of a byte stream, returning the
frame and the remaining bytes. -/
def decodeFLAP (bs : List Nat) : Option (FLAP × List Nat) :=
  match bs with
  | star :: ch :: s1 :: s2 :: l1 :: l2 :: rest =>
      if star = 0x2A then
        let len := l1 * 256 + l2
        if len ≤ rest.length then
          some (⟨ch, s1 * 256 + s2, rest.take len⟩, rest.drop len)
        else none
      else none
  | _ => none

/-! ### Users

Modelled from the spec: `models.User` (not part of the source snapshot)
carries a screen name, a status drawn from {Away, Online, Idle, DND,
Invisible} and a last-activity timestamp; `user.SetAway` stores the Away
status.  Only the fields the main file touches are modelled. -/

inductive UserStatus where
  | away
  | online
  | idle
  | dnd
  | invisible
  deriving Repr, DecidableEq

structure User where
  screenName : String
  status : UserStatus
  lastActivityAt : Nat
  deriving Repr, DecidableEq

/-! ### Messages (from `models/message.go`) -/

structure Message where
  messageID : Nat
  «from» : String
  «to» : String
  contents : String
  createdAt : Nat
  deliveredAt : Option Nat
  deriving Repr, DecidableEq

/-- `InsertMessage` builds the row inserted into the messages table: the
given id, endpoints and contents; `CreatedAt` takes the database default
(the current timestamp) and `DeliveredAt` stays unset (`nullzero`). -/
def InsertMessage (now : Nat) (messageId : Nat) (sender «to» contents : String) : Message :=
  { messageID := messageId, «from» := sender, «to» := «to», contents := contents,
    createdAt := now, deliveredAt := none }

/-- `MarkDelivered` sets `m.DeliveredAt = time.Now()` and updates the row
keyed by `message_id`; no other field is written. -/
def MarkDelivered (now : Nat) (m : Message) : Message :=
  { m with deliveredAt := some now }

/-- Operations the repository performs on the messages table.  The insert
guard models the primary-key constraint on `MessageID`. -/
inductive MessageOp where
  | insert (now messageId : Nat) (sender «to» contents : String)
  | deliver (now messageId : Nat)
  deriving Repr

/-- Modelled from the spec: the only writers of the messages table are
`InsertMessage` (one row per outbound ICBM) and the delivery paths (the
delivery loop and the login-time drain), which invoke `MarkDelivered`
only on messages whose delivered-at is still unset.  No operation deletes
a row. -/
def applyMessageOp (table : List Message) : MessageOp → List Message
  | .insert now id sender «to» contents =>
      if table.any (fun m => m.messageID = id) then table
      else table ++ [InsertMessage now id sender «to» contents]
  | .deliver now id =>
      table.map fun m =>
        if m.messageID = id ∧ m.deliveredAt = none then MarkDelivered now m else m

def applyMessageOps (table : List Message) (ops : List MessageOp) : List Message :=
  ops.foldl applyMessageOp table

/-! ### Session manager

Modelled from the spec: the session manager (`NewSessionManager`,
`SetSession`, `GetSession`, `RemoveSession`) is not part of the source
snapshot; per the spec it is a thread-safe map from screen name to
session, keyed case-insensitively with canonical form lowercased and
spaces stripped. -/

structure Session where
  screenName : String
  deriving Repr, DecidableEq

/-- Canonical form of a screen name: spaces stripped, letters lowercased. -/
def canonicalScreenName (s : String) : String :=
  (((s.toList.filter (fun c => c ≠ ' '))).map Char.toLower).asString

def SessionManager : Type := List (String × Session)

def SetSession (sm : SessionManager) (name : String) (s : Session) : SessionManager :=
  (canonicalScreenName name, s) ::
    List.filter (fun p => p.1 != canonicalScreenName name) sm

def GetSession (sm : SessionManager) (name : String) : Option Session :=
  (List.find? (fun p => p.1 == canonicalScreenName name) sm).map (fun p => p.2)

def RemoveSession (sm : SessionManager) (name : String) : SessionManager :=
  List.filter (fun p => p.1 != canonicalScreenName name) sm

/-! ### Services -/

/-- The families registered with the service manager at startup, in
registration order: generic controls, location, buddy list, ICBM,
authorization/registration, alerts. -/
def registeredFamilies : List Nat := [0x01, 0x02, 0x03, 0x04, 0x17, 0x18]

/-- Modelled from the spec: `services.ServiceVersions`, the table the
service-advertisement SNAC iterates, is not part of the source snapshot.
Per the spec the advertised families are exactly the registered ones, in
registration order; only the family ids are modelled. -/
def ServiceVersions : List Nat := [0x01, 0x02, 0x03, 0x04, 0x17, 0x18]

/-! ### The per-connection handler (`handleFn` / `handleCloseFn` in `main.go`)

The handler's interactions with its environment (logger, database,
presence channel, session manager, socket) are recorded as an effect
trace; the parts of the environment the handler consults (the cookie
authenticator and the per-family service handlers, both outside the
snapshot) enter as oracle parameters. -/

inductive Effect where
  | logDebug (msg : String)
  | logInfo (msg : String)
  | logError (msg : String)
  | sendFlap (f : FLAP)
  | setSession (screenName : String)
  | setAway (screenName : String)
  | pushOnline (screenName : String)
  | disconnect
  | removeSession (screenName : String)
  deriving Repr, DecidableEq

/-- The per-connection context: the session placed there by the outer
handler, and the authenticated user once known. -/
structure Context where
  session : Option Session
  user : Option User
  deriving Repr, DecidableEq

/-- The FLAPs sent on the connection during one handler invocation. -/
def sentFlaps (effects : List Effect) : List FLAP :=
  effects.filterMap fun e =>
    match e with
    | .sendFlap f => some f
    | _ => none

/-- `handleCloseFn`: log the disconnect; if the context carries a user,
set the user Away in persistence (a failure there is only logged), push
the user onto the presence channel, and — when the context still holds
the session — disconnect the socket and drop the session-manager entry. -/
def handleCloseFn (ctx : Context) : List Effect :=
  Effect.logInfo "Disconnected" ::
    match ctx.user with
    | none => []
    | some user =>
        Effect.setAway user.screenName ::
        Effect.logInfo "Disconnecting user" ::
        Effect.pushOnline user.screenName ::
        match ctx.session with
        | some _ => [Effect.disconnect, Effect.removeSession user.screenName]
        | none => []

/-- The prologue of `handleFn` run for every received FLAP: log the frame
(at debug level), and when the context carries an authenticated user,
refresh the user's last-activity timestamp, copy the screen name onto the
session and (re)store the session in the session manager. -/
def refreshUser (debug : Bool) (now : Nat) (ctx : Context) (session : Session) :
    Context × Session × List Effect :=
  match ctx.user with
  | some user =>
      let user := { user with lastActivityAt := now }
      let session := { session with screenName := user.screenName }
      (⟨some session, some user⟩, session,
        (if debug then [Effect.logDebug "RECV"] else [])
          ++ [Effect.setSession user.screenName])
  | none =>
      (ctx, session, if debug then [Effect.logDebug "RECV"] else [])

/-- The service-advertisement SNAC (0x01, 0x03) built after a successful
cookie validation: one 16-bit family id per entry of `ServiceVersions`. -/
def servicesSnac : SNAC :=
  { family := 0x01, subtype := 0x03, flags := 0, requestID := 0,
    data := (ServiceVersions.map u16BE).flatten }

/-- The FLAP wrapping `servicesSnac` (channel 2; the sequence number is
assigned later, at `session.Send`). -/
def servicesFlap : FLAP :=
  { channel := 2, sequence := 0, data := encodeSNAC servicesSnac }

/-- `handleFn`, the per-FLAP dispatcher of `main.go`.

Oracle parameters stand for collaborators outside the snapshot:
`auth` is the outcome of `services.AuthenticateFLAPCookie` on this frame,
and `svc ctx snac` is the `(newCtx, err)` outcome of
`service.HandleSNAC` for the matched service. -/
def handleFn (debug : Bool) (now : Nat)
    (auth : Except String User)
    (svc : Context → SNAC → Context × Option String)
    (ctx : Context) (flap : FLAP) : Context × List Effect :=
  match ctx.session with
  | none => (ctx, [Effect.logError "no session in context"])
  | some session0 =>
      let r := refreshUser debug now ctx session0
      let ctx1 := r.1
      let session := r.2.1
      let pre := r.2.2
      if flap.channel = 1 then
        if flap.data = [0, 0, 0, 1] then
          (ctx1, pre)
        else
          match auth with
          | .error _ =>
              (ctx1, pre ++ [Effect.logError "Could not authenticate user cookie"])
          | .ok user =>
              let session := { session with screenName := user.screenName }
              let ctx2 : Context := ⟨some session, some user⟩
              (ctx2, pre ++ [Effect.logInfo "Authenticated user",
                             Effect.sendFlap servicesFlap])
      else if flap.channel = 2 then
        match decodeSNAC flap.data with
        | none =>
            (ctx1, pre ++ [Effect.logError "could not unmarshal FLAP data",
             Effect.disconnect] ++ handleCloseFn ctx1)
        | some snac =>
            if registeredFamilies.contains snac.family then
              let res := svc ctx1 snac
              match res.2 with
              | some _ =>
                  (res.1, pre ++ [Effect.logError "error handling SNAC",
                   Effect.disconnect] ++ handleCloseFn ctx1)
              | none => (res.1, pre)
            else
              (ctx1, pre)
      else if flap.channel = 4 then
        (ctx1, pre ++ handleCloseFn ctx1)
      else if flap.channel = 5 then
        (ctx1, pre)
      else
        (ctx1, pre ++ [Effect.logInfo "unhandled channel message"])

/-! ### Startup and exit codes (`main`) -/

/-- The startup SQL `UPDATE users SET status = Away WHERE status != Away`
run before the listener is opened. -/
def resetUsersToAway (users : List User) : List User :=
  users.map fun u =>
    if u.status ≠ UserStatus.away then { u with status := UserStatus.away } else u

/-- Outcome of `main` up to the accept loop. -/
inductive StartupResult where
  | exit (code : Nat)
  | listening (users : List User)
  deriving Repr, DecidableEq

/-- The startup sequence of `main`, in source order: flag check
(`os.Exit(1)`), config parse (`log.Fatalf`, exit code 1), log-level parse
(`log.Fatalf`), database connect (`os.Exit(1)`), the reset of every
user's status to Away (`os.Exit(1)` on failure), then the TCP listener
(`os.Exit(1)` on failure).  Only after all of these does the accept loop
start, on the reset user table. -/
def startupSequence (users : List User)
    (configPresent configParses logLevelValid dbConnects resetSucceeds
      listenSucceeds : Bool) : StartupResult :=
  if !configPresent then .exit 1
  else if !configParses then .exit 1
  else if !logLevelValid then .exit 1
  else if !dbConnects then .exit 1
  else if !resetSucceeds then .exit 1
  else if !listenSucceeds then .exit 1
  else .listening (resetUsersToAway users)

/-- The exit code of the shutdown-signal goroutine: after closing the
channels (and the metrics server) it calls `os.Exit(1)`. -/
def shutdownExitCode : Nat := 1

/-- The exit code taken when `listener.Accept` fails in the accept loop. -/
def acceptErrorExitCode : Nat := 1

/-! ### Codec round-trip lemmas -/

theorem u16BE_decode (n : Nat) (h : n < 65536) :
    (n / 256 % 256) * 256 + n % 256 = n := by omega

theorem u32BE_decode (n : Nat) (h : n < 4294967296) :
    ((n / 16777216 % 256 * 256 + n / 65536 % 256) * 256 + n / 256 % 256) * 256
      + n % 256 = n := by omega

theorem decodeSNAC_encodeSNAC (s : SNAC) (h : s.Valid) :
    decodeSNAC (encodeSNAC s) = some s := by
  obtain ⟨h1, h2, h3, h4, _⟩ := h
  obtain ⟨family, subtype, flags, requestID, data⟩ := s
  dsimp only at h1 h2 h3 h4
  simp only [encodeSNAC, u16BE, u32BE, List.cons_append, List.nil_append, decodeSNAC,
    Option.some.injEq, SNAC.mk.injEq, and_true]
  refine ⟨by omega, by omega, by omega, by omega⟩

theorem decodeFLAP_encodeFLAP (f : FLAP) (h : f.Valid) (rest : List Nat) :
    decodeFLAP (encodeFLAP f ++ rest) = some (f, rest) := by
  obtain ⟨h1, h2, h3, _⟩ := h
  obtain ⟨ch, seq, data⟩ := f
  dsimp only at h1 h2 h3
  have hl : data.length / 256 % 256 * 256 + data.length % 256 = data.length := by omega
  have hseq : seq / 256 % 256 * 256 + seq % 256 = seq := by omega
  simp [encodeFLAP, u16BE, decodeFLAP, List.append_assoc, hl, hseq, List.take_left,
    List.drop_left]

theorem decodeTLVs_encodeTLVs (ts : List TLV) (h : ∀ t ∈ ts, t.Valid) :
    decodeTLVs (encodeTLVs ts) = some ts := by
  induction ts with
  | nil => simp [encodeTLVs, decodeTLVs]
  | cons t ts ih =>
      have hv := h t (List.mem_cons_self ..)
      obtain ⟨hty, hlen, _⟩ := hv
      have ihr := ih (fun x hx => h x (List.mem_cons_of_mem _ hx))
      obtain ⟨ty, value⟩ := t
      dsimp only at hty hlen
      simp only [encodeTLVs, List.map_cons, List.flatten_cons] at ihr ⊢
      simp only [encodeTLV, u16BE, List.cons_append, List.nil_append, List.append_assoc]
      rw [decodeTLVs]
      have hl : value.length / 256 % 256 * 256 + value.length % 256
          = value.length := by omega
      simp only [hl]
      rw [dif_pos (by simp)]
      rw [List.drop_left, List.take_left]
      rw [ihr]
      simp only [Option.some.injEq, List.cons.injEq, TLV.mk.injEq, and_true, true_and]
      omega

/-! ### Claim C6 -/

/-- C6: for every valid FLAP, SNAC and TLV value v, decoding the encoding
of v yields v (for the stream-oriented FLAP codec, decoding also returns
the untouched remainder of the stream; for TLVs, which are encoded and
decoded as lists, the round trip holds for every list of valid TLVs). -/
theorem c6_codec_round_trip :
    (∀ f : FLAP, f.Valid → ∀ rest,
        decodeFLAP (encodeFLAP f ++ rest) = some (f, rest)) ∧
    (∀ s : SNAC, s.Valid → decodeSNAC (encodeSNAC s) = some s) ∧
    (∀ ts : List TLV, (∀ t ∈ ts, t.Valid) →
        decodeTLVs (encodeTLVs ts) = some ts) :=
  ⟨fun f h rest => decodeFLAP_encodeFLAP f h rest,
   decodeSNAC_encodeSNAC,
   decodeTLVs_encodeTLVs⟩

theorem c6_codec_round_trip_witness :
    decodeFLAP (encodeFLAP ⟨2, 65535, [0, 0, 0, 1]⟩ ++ [9, 9])
        = some (⟨2, 65535, [0, 0, 0, 1]⟩, [9, 9]) ∧
    decodeSNAC (encodeSNAC ⟨0x17, 0x07, 0x8000, 70000, [1, 2, 3]⟩)
        = some ⟨0x17, 0x07, 0x8000, 70000, [1, 2, 3]⟩ ∧
    decodeTLVs (encodeTLVs [⟨1, [97, 98]⟩, ⟨6, []⟩])
        = some [⟨1, [97, 98]⟩, ⟨6, []⟩] :=
  ⟨c6_codec_round_trip.1 ⟨2, 65535, [0, 0, 0, 1]⟩ (by decide) [9, 9],
   c6_codec_round_trip.2.1 ⟨0x17, 0x07, 0x8000, 70000, [1, 2, 3]⟩ (by decide),
   c6_codec_round_trip.2.2 [⟨1, [97, 98]⟩, ⟨6, []⟩] (by decide)⟩

/-! ### Claim C1 -/

/-- C1: after a successful cookie validation on a channel-1 FLAP (which is
not the version hello), the handler sends exactly one FLAP, carrying the
SNAC (0x01, 0x03) whose payload is the concatenation of the 16-bit family
id of every registered service, and with the services registered at
startup that payload is exactly 00 01 00 02 00 03 00 04 00 17 00 18, in
registration order. -/
theorem c1_service_advertisement (debug : Bool) (now : Nat) (user : User)
    (svc : Context → SNAC → Context × Option String)
    (ctx : Context) (s : Session) (flap : FLAP)
    (hs : ctx.session = some s) (hch : flap.channel = 1)
    (hdata : flap.data ≠ [0, 0, 0, 1]) :
    sentFlaps (handleFn debug now (Except.ok user) svc ctx flap).2 = [servicesFlap] ∧
    decodeSNAC servicesFlap.data = some servicesSnac ∧
    servicesSnac.family = 0x01 ∧ servicesSnac.subtype = 0x03 ∧
    servicesSnac.data = (registeredFamilies.map u16BE).flatten ∧
    servicesSnac.data
      = [0x00, 0x01, 0x00, 0x02, 0x00, 0x03, 0x00, 0x04, 0x00, 0x17, 0x00, 0x18] := by
  refine ⟨?_, by decide, rfl, rfl, by decide, by decide⟩
  obtain ⟨osess, ouser⟩ := ctx
  dsimp only at hs
  subst hs
  cases ouser <;> cases debug <;>
    simp [handleFn, refreshUser, sentFlaps, hch, hdata]

theorem c1_service_advertisement_witness :
    sentFlaps (handleFn false 0 (Except.ok ⟨"alice", UserStatus.online, 0⟩)
        (fun c _ => (c, none)) ⟨some ⟨""⟩, none⟩ ⟨1, 0, [43]⟩).2 = [servicesFlap] ∧
    servicesSnac.data
      = [0x00, 0x01, 0x00, 0x02, 0x00, 0x03, 0x00, 0x04, 0x00, 0x17, 0x00, 0x18] := by
  have h := c1_service_advertisement false 0 ⟨"alice", UserStatus.online, 0⟩
    (fun c _ => (c, none)) ⟨some ⟨""⟩, none⟩ ⟨""⟩ ⟨1, 0, [43]⟩ rfl rfl (by decide)
  exact ⟨h.1, h.2.2.2.2.2⟩

/-! ### Claim C2 -/

/-- C2 counterexample: on a channel-1 FLAP whose cookie validation fails,
the handler logs the failure but the effect trace holds no disconnect, no
session removal and no close handling — the server does not close the
connection, contrary to the claim. -/
theorem c2_counterexample :
    (handleFn false 0 (Except.error "expired") (fun c _ => (c, none))
        ⟨some ⟨""⟩, none⟩ ⟨1, 0, [43]⟩).2
      = [Effect.logError "Could not authenticate user cookie"] ∧
    Effect.disconnect ∉ (handleFn false 0 (Except.error "expired")
        (fun c _ => (c, none)) ⟨some ⟨""⟩, none⟩ ⟨1, 0, [43]⟩).2 ∧
    Effect.logInfo "Disconnected" ∉ (handleFn false 0 (Except.error "expired")
        (fun c _ => (c, none)) ⟨some ⟨""⟩, none⟩ ⟨1, 0, [43]⟩).2 := by
  refine ⟨?_, by decide, by decide⟩
  simp [handleFn, refreshUser]

/-- C2 (amended): when cookie validation of a channel-1 FLAP fails, the
failure is non-fatal at the protocol level and the server records (logs)
the failure, but it does not close the connection: the handler neither
disconnects the socket nor runs close handling nor sends any frame; it
returns the context unchanged (beyond the per-frame refresh prologue) and
keeps serving the connection. -/
theorem c2_auth_failure_nonfatal (debug : Bool) (now : Nat) (e : String)
    (svc : Context → SNAC → Context × Option String)
    (ctx : Context) (s : Session) (flap : FLAP)
    (hs : ctx.session = some s) (hch : flap.channel = 1)
    (hdata : flap.data ≠ [0, 0, 0, 1]) :
    Effect.logError "Could not authenticate user cookie"
        ∈ (handleFn debug now (Except.error e) svc ctx flap).2 ∧
    Effect.disconnect ∉ (handleFn debug now (Except.error e) svc ctx flap).2 ∧
    Effect.logInfo "Disconnected" ∉ (handleFn debug now (Except.error e) svc ctx flap).2 ∧
    (∀ n, Effect.removeSession n ∉ (handleFn debug now (Except.error e) svc ctx flap).2) ∧
    sentFlaps (handleFn debug now (Except.error e) svc ctx flap).2 = [] ∧
    (handleFn debug now (Except.error e) svc ctx flap).1
      = (refreshUser debug now ctx s).1 := by
  obtain ⟨osess, ouser⟩ := ctx
  dsimp only at hs
  subst hs
  cases ouser <;> cases debug <;>
    simp [handleFn, refreshUser, sentFlaps, hch, hdata]

theorem c2_auth_failure_nonfatal_witness :
    Effect.logError "Could not authenticate user cookie"
        ∈ (handleFn true 7 (Except.error "expired") (fun c _ => (c, none))
            ⟨some ⟨""⟩, some ⟨"Bob", UserStatus.online, 0⟩⟩ ⟨1, 5, [1, 2]⟩).2 ∧
    Effect.disconnect ∉ (handleFn true 7 (Except.error "expired")
        (fun c _ => (c, none))
        ⟨some ⟨""⟩, some ⟨"Bob", UserStatus.online, 0⟩⟩ ⟨1, 5, [1, 2]⟩).2 := by
  have h := c2_auth_failure_nonfatal true 7 "expired" (fun c _ => (c, none))
    ⟨some ⟨""⟩, some ⟨"Bob", UserStatus.online, 0⟩⟩ ⟨""⟩ ⟨1, 5, [1, 2]⟩
    rfl rfl (by decide)
  exact ⟨h.1, h.2.1⟩

/-! ### Claim C3 -/

/-- C3: on a channel-2 FLAP whose SNAC names a family with no registered
service, processing continues and the connection stays open — the frame
is logged (at debug level, like every received frame) and then ignored:
no disconnect, no close handling, nothing sent, and the refreshed context
is returned to the loop; whereas when the family is registered and the
service handler returns an error, the session is disconnected and close
handling is run. -/
theorem c3_channel2_dispatch (debug : Bool) (now : Nat)
    (auth : Except String User)
    (svc : Context → SNAC → Context × Option String)
    (ctx : Context) (s : Session) (flap : FLAP) (snac : SNAC)
    (hs : ctx.session = some s) (hch : flap.channel = 2)
    (hsnac : decodeSNAC flap.data = some snac) :
    (snac.family ∉ registeredFamilies →
      (debug = true → Effect.logDebug "RECV" ∈ (handleFn debug now auth svc ctx flap).2) ∧
      Effect.disconnect ∉ (handleFn debug now auth svc ctx flap).2 ∧
      Effect.logInfo "Disconnected" ∉ (handleFn debug now auth svc ctx flap).2 ∧
      sentFlaps (handleFn debug now auth svc ctx flap).2 = [] ∧
      (handleFn debug now auth svc ctx flap).1 = (refreshUser debug now ctx s).1) ∧
    (∀ err, snac.family ∈ registeredFamilies →
      (svc (refreshUser debug now ctx s).1 snac).2 = some err →
      Effect.disconnect ∈ (handleFn debug now auth svc ctx flap).2 ∧
      Effect.logInfo "Disconnected" ∈ (handleFn debug now auth svc ctx flap).2) := by
  obtain ⟨osess, ouser⟩ := ctx
  dsimp only at hs
  subst hs
  constructor
  · intro hmiss
    have hc : registeredFamilies.contains snac.family = false := by simp [hmiss]
    cases ouser <;> cases debug <;>
      simp_all [handleFn, refreshUser, sentFlaps, hch, hsnac, handleCloseFn]
  · intro err hhit herr
    have hc : registeredFamilies.contains snac.family = true := by simp [hhit]
    cases ouser <;> cases debug <;>
      simp_all [handleFn, refreshUser, sentFlaps, hch, hsnac, handleCloseFn]

theorem c3_channel2_dispatch_witness :
    Effect.disconnect ∉ (handleFn false 0 (Except.error "")
        (fun c _ => (c, none)) ⟨some ⟨""⟩, none⟩
        ⟨2, 0, encodeSNAC ⟨0x13, 0x02, 0, 0, []⟩⟩).2 ∧
    Effect.disconnect ∈ (handleFn false 0 (Except.error "")
        (fun c _ => (c, some "repository failure")) ⟨some ⟨""⟩, none⟩
        ⟨2, 0, encodeSNAC ⟨0x04, 0x06, 0, 0, []⟩⟩).2 := by
  have h1 := c3_channel2_dispatch false 0 (Except.error "")
    (fun c _ => (c, none)) ⟨some ⟨""⟩, none⟩ ⟨""⟩
    ⟨2, 0, encodeSNAC ⟨0x13, 0x02, 0, 0, []⟩⟩ ⟨0x13, 0x02, 0, 0, []⟩
    rfl rfl (by decide)
  have h2 := c3_channel2_dispatch false 0 (Except.error "")
    (fun c _ => (c, some "repository failure")) ⟨some ⟨""⟩, none⟩ ⟨""⟩
    ⟨2, 0, encodeSNAC ⟨0x04, 0x06, 0, 0, []⟩⟩ ⟨0x04, 0x06, 0, 0, []⟩
    rfl rfl (by decide)
  exact ⟨(h1.1 (by decide)).2.1, (h2.2 "repository failure" (by decide) rfl).1⟩

/-! ### Claim C4 -/

/-- C4: on a connection whose context carries an authenticated user, a
channel-4 FLAP runs the close handler: the user is marked Away in
persistence, pushed onto the presence channel, removed from the session
manager, and the socket is closed (disconnected). -/
theorem c4_channel4_close (debug : Bool) (now : Nat)
    (auth : Except String User)
    (svc : Context → SNAC → Context × Option String)
    (ctx : Context) (s : Session) (u : User) (flap : FLAP)
    (hs : ctx.session = some s) (hu : ctx.user = some u)
    (hch : flap.channel = 4) :
    Effect.setAway u.screenName ∈ (handleFn debug now auth svc ctx flap).2 ∧
    Effect.pushOnline u.screenName ∈ (handleFn debug now auth svc ctx flap).2 ∧
    Effect.removeSession u.screenName ∈ (handleFn debug now auth svc ctx flap).2 ∧
    Effect.disconnect ∈ (handleFn debug now auth svc ctx flap).2 := by
  obtain ⟨osess, ouser⟩ := ctx
  dsimp only at hs hu
  subst hs
  subst hu
  cases debug <;>
    simp [handleFn, refreshUser, handleCloseFn, hch]

theorem c4_channel4_close_witness :
    Effect.setAway "Bob" ∈ (handleFn false 3 (Except.error "")
        (fun c _ => (c, none))
        ⟨some ⟨"Bob"⟩, some ⟨"Bob", UserStatus.online, 0⟩⟩ ⟨4, 9, []⟩).2 ∧
    Effect.disconnect ∈ (handleFn false 3 (Except.error "")
        (fun c _ => (c, none))
        ⟨some ⟨"Bob"⟩, some ⟨"Bob", UserStatus.online, 0⟩⟩ ⟨4, 9, []⟩).2 := by
  have h := c4_channel4_close false 3 (Except.error "") (fun c _ => (c, none))
    ⟨some ⟨"Bob"⟩, some ⟨"Bob", UserStatus.online, 0⟩⟩ ⟨"Bob"⟩
    ⟨"Bob", UserStatus.online, 0⟩ ⟨4, 9, []⟩ rfl rfl rfl
  exact ⟨h.1, h.2.2.2⟩

/-! ### Claim C5 -/

/-- C5: when startup reaches the accept loop, every user's status in the
users table has been set to Away — regardless of its previous value — and
the reset happened before the listener was opened (the listening state is
built from the already-reset table); screen names are untouched. -/
theorem c5_startup_reset (users : List User)
    (configPresent configParses logLevelValid dbConnects resetSucceeds
      listenSucceeds : Bool) (us : List User)
    (h : startupSequence users configPresent configParses logLevelValid
        dbConnects resetSucceeds listenSucceeds = .listening us) :
    us = resetUsersToAway users ∧
    (∀ u ∈ us, u.status = UserStatus.away) ∧
    us.map User.screenName = users.map User.screenName := by
  have hres : us = resetUsersToAway users := by
    unfold startupSequence at h
    cases configPresent <;> cases configParses <;> cases logLevelValid <;>
      cases dbConnects <;> cases resetSucceeds <;> cases listenSucceeds <;>
      simp_all
  subst hres
  refine ⟨rfl, ?_, ?_⟩
  · intro u hu
    obtain ⟨v, _, hv⟩ := List.mem_map.mp hu
    by_cases hst : v.status = UserStatus.away <;> simp [hst] at hv <;>
      simp [← hv, hst]
  · unfold resetUsersToAway
    rw [List.map_map]
    congr 1
    funext v
    by_cases hst : v.status = UserStatus.away <;> simp [hst]

theorem c5_startup_reset_witness :
    (⟨"Bob", UserStatus.away, 4⟩ : User).status = UserStatus.away ∧
    (resetUsersToAway [⟨"Bob", UserStatus.online, 4⟩]).map User.screenName
      = ["Bob"] := by
  have h := c5_startup_reset [⟨"Bob", UserStatus.online, 4⟩]
    true true true true true true
    (resetUsersToAway [⟨"Bob", UserStatus.online, 4⟩]) rfl
  exact ⟨h.2.1 ⟨"Bob", UserStatus.away, 4⟩ (by decide), by simpa using h.2.2⟩

/-! ### Claim C7 -/

/-- C7: the session registry is keyed case-insensitively: lookups agree on
any two screen names with the same canonical form (lowercased, spaces
stripped), and after storing a session under a screen name, looking it up
under any such variant returns that session. -/
theorem c7_session_registry (sm : SessionManager) (name variant : String)
    (s : Session)
    (h : canonicalScreenName variant = canonicalScreenName name) :
    GetSession sm variant = GetSession sm name ∧
    GetSession (SetSession sm name s) variant = some s := by
  constructor
  · simp [GetSession, h]
  · simp [GetSession, SetSession, h]

theorem c7_session_registry_witness :
    GetSession (SetSession [] "Alice B" ⟨"Alice B"⟩) "aliceb"
      = some ⟨"Alice B"⟩ :=
  (c7_session_registry [] "Alice B" "aliceb" ⟨"Alice B"⟩ (by decide)).2

/-! ### Claim C8 -/

/-- C8 counterexample: the shutdown-signal goroutine calls `os.Exit(1)`,
so the process exits with code 1 — not 0 — on clean shutdown. -/
theorem c8_counterexample : shutdownExitCode = 1 ∧ ¬ shutdownExitCode = 0 := by
  decide

/-- C8 (amended): the process exits non-zero on configuration error or
listener failure (every startup abort carries exit code 1), and — unlike
the claim — it also exits with the non-zero code 1 on clean shutdown
(the signal handler calls `os.Exit(1)`). -/
theorem c8_exit_codes (users : List User)
    (configPresent configParses logLevelValid dbConnects resetSucceeds
      listenSucceeds : Bool) (c : Nat)
    (h : startupSequence users configPresent configParses logLevelValid
        dbConnects resetSucceeds listenSucceeds = .exit c) :
    c = 1 ∧ c ≠ 0 ∧ shutdownExitCode = 1 ∧ acceptErrorExitCode ≠ 0 := by
  unfold startupSequence at h
  cases configPresent <;> cases configParses <;> cases logLevelValid <;>
    cases dbConnects <;> cases resetSucceeds <;> cases listenSucceeds <;>
    simp_all <;> simp [← h, shutdownExitCode, acceptErrorExitCode]

theorem c8_exit_codes_witness :
    (1 : Nat) = 1 ∧ (1 : Nat) ≠ 0 ∧ shutdownExitCode = 1 ∧
      acceptErrorExitCode ≠ 0 :=
  c8_exit_codes [] false true true true true true 1 rfl

/-! ### Claim C9 -/

/-- Any single table operation keeps a delivered message exactly as it is:
the deliver path only touches rows whose delivered-at is unset, and the
insert path only appends. -/
theorem applyMessageOp_fixes_delivered (op : MessageOp) (table : List Message)
    (m : Message) (t : Nat) (hm : m ∈ table) (hd : m.deliveredAt = some t) :
    m ∈ applyMessageOp table op := by
  cases op with
  | insert now id sender target contents =>
      simp only [applyMessageOp]
      split
      · exact hm
      · exact List.mem_append_left _ hm
  | deliver now id =>
      simp only [applyMessageOp]
      refine List.mem_map.mpr ⟨m, hm, ?_⟩
      rw [if_neg]
      simp [hd]

/-- Any single table operation preserves every row's id: no row is ever
deleted. -/
theorem applyMessageOp_preserves_ids (op : MessageOp) (table : List Message)
    (m : Message) (hm : m ∈ table) :
    ∃ y ∈ applyMessageOp table op, y.messageID = m.messageID := by
  cases op with
  | insert now id sender target contents =>
      simp only [applyMessageOp]
      split
      · exact ⟨m, hm, rfl⟩
      · exact ⟨m, List.mem_append_left _ hm, rfl⟩
  | deliver now id =>
      simp only [applyMessageOp]
      refine ⟨_, List.mem_map_of_mem _ hm, ?_⟩
      split
      · rfl
      · rfl

theorem applyMessageOps_fixes_delivered (ops : List MessageOp)
    (table : List Message) (m : Message) (t : Nat)
    (hm : m ∈ table) (hd : m.deliveredAt = some t) :
    m ∈ applyMessageOps table ops := by
  induction ops generalizing table with
  | nil => exact hm
  | cons op ops ih =>
      exact ih (applyMessageOp table op)
        (applyMessageOp_fixes_delivered op table m t hm hd)

theorem applyMessageOps_preserve_ids (ops : List MessageOp)
    (table : List Message) (m : Message) (hm : m ∈ table) :
    ∃ y ∈ applyMessageOps table ops, y.messageID = m.messageID := by
  induction ops generalizing table m with
  | nil => exact ⟨m, hm, rfl⟩
  | cons op ops ih =>
      obtain ⟨y, hy, hid⟩ := applyMessageOp_preserves_ids op table m hm
      obtain ⟨z, hz, hzid⟩ := ih (applyMessageOp table op) y hy
      exact ⟨z, hz, hzid.trans hid⟩

/-- C9: `MarkDelivered` writes only the delivered-at timestamp (to the
current time) and leaves `MessageID`, `From`, `To`, `Contents` and
`CreatedAt` unchanged; a freshly inserted message has delivered-at unset;
and over any sequence of table operations no message is ever deleted and
a set delivered-at is never written again (a message delivered at `t`
survives every later operation exactly as it is). -/
theorem c9_mark_delivered (now : Nat) (ops : List MessageOp)
    (table : List Message) (m : Message) (t : Nat)
    (hm : m ∈ table) (hd : m.deliveredAt = some t) :
    ((MarkDelivered now m).messageID = m.messageID ∧
     (MarkDelivered now m).«from» = m.«from» ∧
     (MarkDelivered now m).«to» = m.«to» ∧
     (MarkDelivered now m).contents = m.contents ∧
     (MarkDelivered now m).createdAt = m.createdAt ∧
     (MarkDelivered now m).deliveredAt = some now) ∧
    (∀ id sender target contents,
        (InsertMessage now id sender target contents).deliveredAt = none) ∧
    m ∈ applyMessageOps table ops ∧
    (∀ x ∈ table, ∃ y ∈ applyMessageOps table ops, y.messageID = x.messageID) :=
  ⟨⟨rfl, rfl, rfl, rfl, rfl, rfl⟩,
   fun _ _ _ _ => rfl,
   applyMessageOps_fixes_delivered ops table m t hm hd,
   fun x hx => applyMessageOps_preserve_ids ops table x hx⟩

theorem c9_mark_delivered_witness :
    (MarkDelivered 9 ⟨5, "alice", "bob", "hi", 1, some 2⟩).contents = "hi" ∧
    (⟨5, "alice", "bob", "hi", 1, some 2⟩ : Message) ∈
      applyMessageOps [⟨5, "alice", "bob", "hi", 1, some 2⟩]
        [MessageOp.deliver 9 5, MessageOp.insert 9 6 "bob" "alice" "yo"] := by
  have h := c9_mark_delivered 9
    [MessageOp.deliver 9 5, MessageOp.insert 9 6 "bob" "alice" "yo"]
    [⟨5, "alice", "bob", "hi", 1, some 2⟩]
    ⟨5, "alice", "bob", "hi", 1, some 2⟩ 2 (by decide) rfl
  exact ⟨h.1.2.2.2.1, h.2.2.1⟩

/-! ### Claim C10 -/

/-- In every branch of `handleFn` on a context that holds a session, the
emitted effects start with the refresh prologue. -/
theorem handleFn_effects_start_with_prologue (debug : Bool) (now : Nat)
    (auth : Except String User)
    (svc : Context → SNAC → Context × Option String)
    (ctx : Context) (s : Session) (flap : FLAP)
    (hs : ctx.session = some s) :
    ∃ rest, (handleFn debug now auth svc ctx flap).2
      = (refreshUser debug now ctx s).2.2 ++ rest := by
  obtain ⟨osess, ouser⟩ := ctx
  dsimp only at hs
  subst hs
  unfold handleFn
  dsimp only
  repeat' split
  all_goals dsimp only
  all_goals first
    | exact ⟨[], (List.append_nil _).symm⟩
    | exact ⟨_, rfl⟩
    | exact ⟨_, List.append_assoc _ _ _⟩

/-- C10: for every FLAP processed on a connection whose context already
carries an authenticated user — whatever the channel or content — the
handler stores the session in the session registry under the user's
screen name (the registry entry is refreshed on every received frame),
and the refresh prologue it runs first sets that user's last-activity
timestamp to the current time and carries the updated user in the context
handed to dispatch. -/
theorem c10_refresh_every_frame (debug : Bool) (now : Nat)
    (auth : Except String User)
    (svc : Context → SNAC → Context × Option String)
    (ctx : Context) (s : Session) (u : User) (flap : FLAP)
    (hs : ctx.session = some s) (hu : ctx.user = some u) :
    Effect.setSession u.screenName ∈ (handleFn debug now auth svc ctx flap).2 ∧
    (refreshUser debug now ctx s).1.user
        = some { u with lastActivityAt := now } ∧
    (refreshUser debug now ctx s).2.1.screenName = u.screenName := by
  obtain ⟨rest, hr⟩ :=
    handleFn_effects_start_with_prologue debug now auth svc ctx s flap hs
  refine ⟨?_, ?_, ?_⟩
  · rw [hr]
    apply List.mem_append_left
    obtain ⟨osess, ouser⟩ := ctx
    dsimp only at hu
    subst hu
    cases debug <;> simp [refreshUser]
  · obtain ⟨osess, ouser⟩ := ctx
    dsimp only at hu
    subst hu
    simp [refreshUser]
  · obtain ⟨osess, ouser⟩ := ctx
    dsimp only at hu
    subst hu
    simp [refreshUser]

theorem c10_refresh_every_frame_witness :
    Effect.setSession "Bob" ∈ (handleFn false 11 (Except.error "")
        (fun c _ => (c, none))
        ⟨some ⟨""⟩, some ⟨"Bob", UserStatus.online, 3⟩⟩ ⟨5, 0, []⟩).2 ∧
    (refreshUser false 11 ⟨some ⟨""⟩, some ⟨"Bob", UserStatus.online, 3⟩⟩
        ⟨""⟩).1.user = some ⟨"Bob", UserStatus.online, 11⟩ := by
  have h := c10_refresh_every_frame false 11 (Except.error "")
    (fun c _ => (c, none))
    ⟨some ⟨""⟩, some ⟨"Bob", UserStatus.online, 3⟩⟩ ⟨""⟩
    ⟨"Bob", UserStatus.online, 3⟩ ⟨5, 0, []⟩ rfl rfl
  exact ⟨h.1, h.2.1⟩

end AimOscar
